import Mathlib

/-!
Verification of the MQTT frontend for the Mopidy media player
(`mopidy_mqtt/frontend.py`).

The frontend is embedded shallowly:

* The external player (Mopidy core) is a `Player` record holding the mixer
  volume, the playback state and the tracklist (queue).  Every call the
  frontend makes into the core is recorded as a `PlayerCall`, and the calls
  whose effect on the modelled state is visible (volume set, tracklist add,
  tracklist clear) also update the `Player` record.
* Each `on_action_*` handler and each lifecycle callback of `MQTTFrontend`
  becomes a function from the current `Player` (where it reads state) and the
  decoded payload to the new `Player` plus an `Effects` record listing the
  player calls made, the warnings logged, the MQTT messages published
  (topic suffix, payload — `Comms.publish` prepends the configured topic
  prefix, outside this model), and whether the handler raised
  `NotImplementedError`.
* Python's `int()` applied to the volume amount is modelled by `pyInt`,
  following CPython's two stages: every character is first transformed
  (characters below 128 are kept; a non-ASCII character is turned into a
  space if it is Unicode whitespace, into the matching ASCII digit if it is
  a Unicode decimal digit, and otherwise left to fail), then the result is
  parsed as ASCII: surrounding ASCII whitespace stripped, an optional single
  sign, and digits with single-underscore grouping.  The whitespace and
  decimal-digit tables are CPython 3.11's Unicode data.  MQTT payloads are
  modelled as already decoded to strings, as the handlers' indexing and
  comparisons require.
* The mixer is modelled as reporting an integer volume (a mixer without
  volume support, where `get_volume()` is `None`, is a player-collaborator
  failure outside this model).
-/

/-- `mopidy.audio.PlaybackState`: the three playback states of the core. -/
inductive PlaybackState where
  | stopped
  | playing
  | paused
deriving Repr, DecidableEq

/-- The wire form of a playback state (`PlaybackState` constants are the
strings "stopped", "playing", "paused"). -/
def PlaybackState.toWire : PlaybackState → String
  | .stopped => "stopped"
  | .playing => "playing"
  | .paused => "paused"

/-- One call made by the frontend into the Mopidy core (the player facade). -/
inductive PlayerCall where
  | play
  | stop
  | pause
  | resume
  | previous
  | next
  | setVolume (v : Int)
  | tracklistAdd (uri : String)
  | tracklistClear
deriving Repr, DecidableEq

/-- The observable state of the external player that the frontend reads and
writes: mixer volume, playback state, and the tracklist (queue) as a list of
track URIs. -/
structure Player where
  volume : Int
  state : PlaybackState
  queue : List String
deriving Repr, DecidableEq

/-- The side effects of one handler or callback invocation: player calls
made, warnings logged, MQTT messages published as (topic suffix, payload)
pairs, and whether `NotImplementedError` was raised. -/
structure Effects where
  calls : List PlayerCall
  warnings : List String
  published : List (String × String)
  raised : Bool
deriving Repr, DecidableEq

/-- No side effects. -/
def noEff : Effects := ⟨[], [], [], false⟩

/-- A single `log.warn` and nothing else (`return log.warn(...)`). -/
def warnEff (m : String) : Effects := ⟨[], [m], [], false⟩

/-- A single player call and nothing else. -/
def callEff (c : PlayerCall) : Effects := ⟨[c], [], [], false⟩

/-- A single `self.mqtt.publish(topicSuffix, payload)` and nothing else. -/
def pubEff (topicSuffix payload : String) : Effects := ⟨[], [], [(topicSuffix, payload)], false⟩

/-- Raising `NotImplementedError` out of the handler, after the given calls. -/
def raiseEff (cs : List PlayerCall) : Effects := ⟨cs, [], [], true⟩

/-- `VOLUME_MAX` from frontend.py. -/
def VOLUME_MAX : Int := 100

/-- `VOLUME_MIN` from frontend.py. -/
def VOLUME_MIN : Int := 0

/-- The `volume` property setter: normalizes with `min(value, VOLUME_MAX)`
then `max(value, VOLUME_MIN)` and calls `self.core.mixer.set_volume(value)`. -/
def volumeSet (p : Player) (value : Int) : Player × Effects :=
  let v1 := min value VOLUME_MAX
  let v2 := max v1 VOLUME_MIN
  (⟨v2, p.state, p.queue⟩, callEff (.setVolume v2))

/-! ### Python `int()`

CPython's `int(str)` first rewrites the string character by character
(`_PyUnicode_TransformDecimalAndSpaceToASCII`): characters below 128 are kept
unchanged, a non-ASCII Unicode whitespace character becomes `' '`, a Unicode
decimal digit becomes the ASCII digit with the same value, and anything else
is left in place (making the subsequent parse fail).  The resulting string is
parsed by the ASCII integer parser: optional surrounding ASCII whitespace, an
optional sign, then digits with single-underscore grouping.  Both tables
below are CPython 3.11's Unicode data. -/

/-- The ASCII whitespace accepted around a numeral by CPython's ASCII
integer parser (0x09-0x0D and 0x20; the other ASCII control characters,
0x1C-0x1F included, are rejected). -/
def isPyWhitespace (c : Char) : Bool :=
  c = ' ' || c = '\t' || c = '\n' || c = '\x0d' || c = '\x0b' || c = '\x0c'

/-- The first code points of the 66 runs of ten consecutive Unicode decimal
digits (category Nd): a code point `s + i` with `i < 10` denotes the digit
`i`. -/
def pyNdStarts : List Nat :=
  [0x30, 0x660, 0x6f0, 0x7c0, 0x966, 0x9e6, 0xa66, 0xae6, 0xb66, 0xbe6,
   0xc66, 0xce6, 0xd66, 0xde6, 0xe50, 0xed0, 0xf20, 0x1040, 0x1090, 0x17e0,
   0x1810, 0x1946, 0x19d0, 0x1a80, 0x1a90, 0x1b50, 0x1bb0, 0x1c40, 0x1c50,
   0xa620, 0xa8d0, 0xa900, 0xa9d0, 0xa9f0, 0xaa50, 0xabf0, 0xff10, 0x104a0,
   0x10d30, 0x11066, 0x110f0, 0x11136, 0x111d0, 0x112f0, 0x11450, 0x114d0,
   0x11650, 0x116c0, 0x11730, 0x118e0, 0x11950, 0x11c50, 0x11d50, 0x11da0,
   0x16a60, 0x16ac0, 0x16b50, 0x1d7ce, 0x1d7d8, 0x1d7e2, 0x1d7ec, 0x1d7f6,
   0x1e140, 0x1e2f0, 0x1e950, 0x1fbf0]

/-- The decimal value of a Unicode decimal digit (category Nd), if any. -/
def unicodeDecimal (c : Char) : Option Nat :=
  (pyNdStarts.find? (fun s => s ≤ c.toNat && c.toNat < s + 10)).map
    (fun s => c.toNat - s)

/-- The non-ASCII Unicode whitespace code points, which CPython's transform
turns into `' '` (NEL, NBSP, ogham space mark, the U+2000-U+200A spaces,
line and paragraph separators, narrow no-break space, medium mathematical
space, ideographic space). -/
def pyNonAsciiSpaces : List Nat :=
  [0x85, 0xa0, 0x1680, 0x2000, 0x2001, 0x2002, 0x2003, 0x2004, 0x2005,
   0x2006, 0x2007, 0x2008, 0x2009, 0x200a, 0x2028, 0x2029, 0x202f, 0x205f,
   0x3000]

/-- CPython's per-character transform applied by `int(str)` before the ASCII
parse. -/
def pyTransform (c : Char) : Char :=
  if c.toNat < 128 then c
  else if pyNonAsciiSpaces.contains c.toNat then ' '
  else match unicodeDecimal c with
    | some d => Char.ofNat (48 + d)
    | none => c

/-- Parse the digits of an integer literal after its first digit, allowing
single-underscore grouping between digits, accumulating the value.  The flag
records that the previous character was an underscore (which must be followed
by a digit). -/
def pyDigitsAux : List Char → Bool → Nat → Option Nat
  | [], afterUnderscore, acc => if afterUnderscore then none else some acc
  | c :: rest, afterUnderscore, acc =>
    if c.isDigit then pyDigitsAux rest false (acc * 10 + (c.toNat - 48))
    else if c = '_' && !afterUnderscore then pyDigitsAux rest true acc
    else none

/-- Parse a nonempty digit group (first character must be a digit). -/
def pyDigitsList : List Char → Option Nat
  | [] => none
  | c :: rest =>
    if c.isDigit then pyDigitsAux rest false (c.toNat - 48) else none

/-- Parse an optionally signed digit group. -/
def pyIntCore : List Char → Option Int
  | [] => none
  | c :: rest =>
    if c = '+' then (pyDigitsList rest).map (fun n => (n : Int))
    else if c = '-' then (pyDigitsList rest).map (fun n => -(n : Int))
    else (pyDigitsList (c :: rest)).map (fun n => (n : Int))

/-- Strip leading and trailing whitespace. -/
def pyStrip (cs : List Char) : List Char :=
  ((cs.dropWhile isPyWhitespace).reverse.dropWhile isPyWhitespace).reverse

/-- Python's `int(s)`: transform each character to ASCII (whitespace and
decimal digits), strip surrounding ASCII whitespace, then parse an optional
sign followed by a nonempty digit group with optional single-underscore
grouping; `none` models `ValueError`. -/
def pyInt (s : String) : Option Int :=
  pyIntCore (pyStrip (s.data.map pyTransform))

/-! ### Action handlers (`MQTTFrontend.on_action_*`) -/

/-- `on_action_plb`: playback control.  The `toggle` branch reads
`self.current_state` (`core.playback.get_state()`). -/
def on_action_plb (p : Player) (value : String) : Player × Effects :=
  if value = "play" then (p, callEff .play)
  else if value = "stop" then (p, callEff .stop)
  else if value = "pause" then (p, callEff .pause)
  else if value = "resume" then (p, callEff .resume)
  else if value = "toggle" then
    match p.state with
    | .playing => (p, callEff .pause)
    | .paused => (p, callEff .resume)
    | .stopped => (p, callEff .play)
  else if value = "prev" then (p, callEff .previous)
  else if value = "next" then (p, callEff .next)
  else (p, warnEff ("Unknown playback control action: " ++ value))

/-- `on_action_vol`: volume control.  The fallback arm is the guard
`if not value or len(value) < 2` (an empty or one-character payload);
otherwise `operator = value[0]`, `amount = int(value[1:])`, with
`ValueError` mapped to `pyInt = none`. -/
def on_action_vol (p : Player) (value : String) : Player × Effects :=
  match value.data with
  | operator :: d :: rest =>
    let amountStr : String := ⟨d :: rest⟩
    match pyInt amountStr with
    | none => (p, warnEff ("Invalid volume setting value: " ++ amountStr))
    | some amount =>
      if operator = '=' then volumeSet p amount
      else if operator = '-' then volumeSet p (p.volume - amount)
      else if operator = '+' then volumeSet p (p.volume + amount)
      else (p, warnEff ("Unknown volume control operator: " ++ String.mk [operator]))
  | _ => (p, warnEff ("Invalid volume control parameter: " ++ value))

/-- `on_action_add`: append URI to queue; `core.tracklist.add` with
`at_position=None` appends at the end. -/
def on_action_add (p : Player) (value : String) : Player × Effects :=
  if value = "" then (p, warnEff "Cannot add empty track to queue")
  else (⟨p.volume, p.state, p.queue ++ [value]⟩, callEff (.tracklistAdd value))

/-- `on_action_loa`: replace queue with a playlist.  With a nonempty value it
calls `core.tracklist.clear()` and then raises `NotImplementedError`. -/
def on_action_loa (p : Player) (value : String) : Player × Effects :=
  if value = "" then (p, warnEff "Cannot load unnamed playlist")
  else (⟨p.volume, p.state, []⟩, raiseEff [.tracklistClear])

/-- `on_action_clr`: clear the queue (ignores its value). -/
def on_action_clr (p : Player) (_value : String) : Player × Effects :=
  (⟨p.volume, p.state, []⟩, callEff .tracklistClear)

/-- `on_action_src`: search; with a nonempty value it raises
`NotImplementedError` without touching the player. -/
def on_action_src (p : Player) (value : String) : Player × Effects :=
  if value = "" then (p, warnEff "Cannot search without a query")
  else (p, raiseEff [])

/-- `on_action_inf`: information queries.  `state` and `volume` publish the
current snapshot; `queue` raises `NotImplementedError`. -/
def on_action_inf (p : Player) (value : String) : Player × Effects :=
  if value = "state" then (p, pubEff "sta" p.state.toWire)
  else if value = "volume" then (p, pubEff "vol" (toString p.volume))
  else if value = "queue" then (p, raiseEff [])
  else (p, warnEff ("Unkown information request: " ++ value))

/-! ### Event publisher (lifecycle callbacks) -/

/-- `mopidy.models.TlTrack`: a tracklist entry wrapping a track.  Only the
fields the frontend forwards are modelled; the track is abstract (its wire
format is produced by the external formatting collaborator). -/
structure TlTrack (Track : Type) where
  track : Track

/-- `playback_state_changed`: publishes the new state on `sta`. -/
def playback_state_changed (_old_state new_state : PlaybackState) : Effects :=
  pubEff "sta" new_state.toWire

/-- `track_playback_started`: publishes `describe_track(tl_track.track)` on
`trk`; `describe_track` is the external formatting collaborator
(`mopidy_mqtt.utils`), taken as a parameter. -/
def track_playback_started {Track : Type} (describe_track : Track → String)
    (tl_track : TlTrack Track) : Effects :=
  pubEff "trk" (describe_track tl_track.track)

/-- `track_playback_ended`: publishes the empty string on `trk`, for every
track and time position. -/
def track_playback_ended {Track : Type} (_tl_track : TlTrack Track)
    (_time_position : Int) : Effects :=
  pubEff "trk" ""

/-- `volume_changed`: publishes `str(volume)` on `vol`. -/
def volume_changed (volume : Int) : Effects :=
  pubEff "vol" (toString volume)

/-- `stream_title_changed`: publishes `describe_stream(title)` on `trk`;
`describe_stream` is the external formatting collaborator, taken as a
parameter. -/
def stream_title_changed (describe_stream : String → String)
    (title : String) : Effects :=
  pubEff "trk" (describe_stream title)

/-! ### The dispatch boundary -/

/-- The outcome of dispatching one inbound message, as seen at the dispatch
boundary: handled normally, dropped as an unknown command, surfaced as a
signaled not-implemented condition, or an exception escaping past the
dispatcher (a crash). -/
inductive DispatchOutcome where
  | handled
  | unknownCommand
  | notImplementedSignaled
  | crashed
deriving Repr, DecidableEq

/-- Modelled from the spec: the boundary around one handler call.  Per §7 a
`NotImplementedError` raised by a handler surfaces as a signaled
not-implemented condition at the dispatch boundary instead of escaping. -/
def boundary (pe : Player × Effects) : Player × Effects × DispatchOutcome :=
  (pe.1, pe.2,
    if pe.2.raised then DispatchOutcome.notImplementedSignaled
    else DispatchOutcome.handled)

/-- Modelled from the spec: the Action Dispatcher lives in
`mopidy_mqtt/mqtt.py` (`Comms`), which is not under src/.  Per §4.1 it looks
up the handler keyed by the topic suffix and logs-and-ignores an unknown
command, and per §7 a `NotImplementedError` raised by `loa`, `src` or
`inf queue` surfaces as a distinct not-implemented condition at the dispatch
boundary rather than crashing the process. -/
def dispatch (p : Player) (topicSuffix payload : String) :
    Player × Effects × DispatchOutcome :=
  if topicSuffix = "plb" then boundary (on_action_plb p payload)
  else if topicSuffix = "vol" then boundary (on_action_vol p payload)
  else if topicSuffix = "add" then boundary (on_action_add p payload)
  else if topicSuffix = "clr" then boundary (on_action_clr p payload)
  else if topicSuffix = "loa" then boundary (on_action_loa p payload)
  else if topicSuffix = "src" then boundary (on_action_src p payload)
  else if topicSuffix = "inf" then boundary (on_action_inf p payload)
  else (p, warnEff ("Unknown command: " ++ topicSuffix), .unknownCommand)

/-- The decimal value of a list of ASCII digit characters. -/
def digitsVal (ds : List Char) : Nat :=
  ds.foldl (fun a c => a * 10 + (c.toNat - 48)) 0

/-! ### Lemmas about `pyInt` on plain digit strings -/

lemma isDigit_not_pyWhitespace {c : Char} (h : c.isDigit = true) :
    isPyWhitespace c = false := by
  by_contra hw
  rw [Bool.not_eq_false] at hw
  simp only [isPyWhitespace, Bool.or_eq_true, decide_eq_true_eq] at hw
  rcases hw with ((((rfl | rfl) | rfl) | rfl) | rfl) | rfl <;> exact absurd h (by decide)

lemma isDigit_ne_plus {c : Char} (h : c.isDigit = true) : c ≠ '+' := by
  rintro rfl; exact absurd h (by decide)

lemma isDigit_ne_minus {c : Char} (h : c.isDigit = true) : c ≠ '-' := by
  rintro rfl; exact absurd h (by decide)

lemma isDigit_ne_underscore {c : Char} (h : c.isDigit = true) : c ≠ '_' := by
  rintro rfl; exact absurd h (by decide)

lemma isDigit_toNat_lt {c : Char} (h : c.isDigit = true) : c.toNat < 128 := by
  simp only [Char.isDigit, Bool.and_eq_true, decide_eq_true_eq] at h
  have h2 := h.2
  rw [UInt32.le_def, BitVec.le_def] at h2
  have e1 : c.toNat = c.val.toBitVec.toNat := rfl
  have e2 : (57 : UInt32).toBitVec.toNat = 57 := rfl
  omega

lemma pyTransform_of_digit {c : Char} (h : c.isDigit = true) :
    pyTransform c = c := by
  rw [pyTransform, if_pos (isDigit_toNat_lt h)]

lemma map_pyTransform_of_digits {cs : List Char}
    (hd : ∀ c ∈ cs, c.isDigit = true) : cs.map pyTransform = cs := by
  induction cs with
  | nil => rfl
  | cons c t ih =>
    rw [List.map_cons, pyTransform_of_digit (hd c (List.mem_cons_self c t)),
      ih (fun x hx => hd x (List.mem_cons_of_mem c hx))]

lemma dropWhile_eq_self_of_forall {p : Char → Bool} {cs : List Char}
    (h : ∀ c ∈ cs, p c = false) : cs.dropWhile p = cs := by
  cases cs with
  | nil => rfl
  | cons c t =>
    rw [List.dropWhile_cons, h c (List.mem_cons_self c t)]
    simp

lemma pyStrip_of_digits {cs : List Char} (hd : ∀ c ∈ cs, c.isDigit = true) :
    pyStrip cs = cs := by
  unfold pyStrip
  rw [dropWhile_eq_self_of_forall (fun c hc => isDigit_not_pyWhitespace (hd c hc))]
  rw [dropWhile_eq_self_of_forall
    (fun c hc => isDigit_not_pyWhitespace (hd c (List.mem_reverse.mp hc)))]
  exact List.reverse_reverse cs

lemma pyDigitsAux_of_digits {cs : List Char} (hd : ∀ c ∈ cs, c.isDigit = true)
    (acc : Nat) :
    pyDigitsAux cs false acc =
      some (cs.foldl (fun a c => a * 10 + (c.toNat - 48)) acc) := by
  induction cs generalizing acc with
  | nil => rfl
  | cons c t ih =>
    have hc : c.isDigit = true := hd c (List.mem_cons_self c t)
    rw [pyDigitsAux, if_pos hc,
      ih (fun x hx => hd x (List.mem_cons_of_mem c hx)), List.foldl_cons]

lemma pyInt_of_digits {cs : List Char} (hne : cs ≠ [])
    (hd : ∀ c ∈ cs, c.isDigit = true) :
    pyInt ⟨cs⟩ = some (digitsVal cs : Int) := by
  obtain ⟨c, t, rfl⟩ := List.exists_cons_of_ne_nil hne
  have hc : c.isDigit = true := hd c (List.mem_cons_self c t)
  have ht : ∀ x ∈ t, x.isDigit = true := fun x hx => hd x (List.mem_cons_of_mem c hx)
  unfold pyInt
  rw [show (String.mk (c :: t)).data = c :: t from rfl,
    map_pyTransform_of_digits hd, pyStrip_of_digits hd,
    pyIntCore, if_neg (isDigit_ne_plus hc), if_neg (isDigit_ne_minus hc),
    pyDigitsList, if_pos hc, pyDigitsAux_of_digits ht]
  simp [digitsVal]

/-- Agreement with CPython on non-ASCII payloads: `int()` accepts Unicode
decimal digits and Unicode whitespace, so the payload `"=١٢"` (equals sign,
Arabic-Indic one and two) sets the volume to 12 and a no-break-space-padded
amount `"=\xa05"` sets it to 5 — neither is rejected as malformed. -/
lemma on_action_vol_unicode :
    on_action_vol ⟨50, .stopped, []⟩
        (String.mk ['=', Char.ofNat 0x661, Char.ofNat 0x662]) =
      (⟨12, .stopped, []⟩, callEff (.setVolume 12)) ∧
    on_action_vol ⟨50, .stopped, []⟩
        (String.mk ['=', Char.ofNat 0xa0, '5']) =
      (⟨5, .stopped, []⟩, callEff (.setVolume 5)) := by decide

/-! ### Claims -/

/-- C1: for every volume command payload `'=' ++ ds`, `'-' ++ ds` or
`'+' ++ ds` with `ds` a nonempty string of digits denoting the non-negative
integer `N = digitsVal ds`, and every current player volume `V`, dispatching
the `vol` action sets the player volume to `clamp(op(V, N), 0, 100)`
(written `max (min _ VOLUME_MAX) VOLUME_MIN`), where `op` is: `N` for `'='`,
`V - N` for `'-'`, and `V + N` for `'+'`. -/
theorem mopidy_mqtt_C1 (p : Player) (ds : List Char) (hne : ds ≠ [])
    (hd : ∀ c ∈ ds, c.isDigit = true) :
    (on_action_vol p ⟨'=' :: ds⟩).1.volume =
      max (min (digitsVal ds : Int) VOLUME_MAX) VOLUME_MIN ∧
    (on_action_vol p ⟨'-' :: ds⟩).1.volume =
      max (min (p.volume - (digitsVal ds : Int)) VOLUME_MAX) VOLUME_MIN ∧
    (on_action_vol p ⟨'+' :: ds⟩).1.volume =
      max (min (p.volume + (digitsVal ds : Int)) VOLUME_MAX) VOLUME_MIN := by
  obtain ⟨d, t, rfl⟩ := List.exists_cons_of_ne_nil hne
  have hpy := pyInt_of_digits hne hd
  refine ⟨?_, ?_, ?_⟩ <;>
    simp [on_action_vol, hpy, volumeSet, callEff]

/-- Witness for C1: the spec's own scenario — current volume 95, payload
`"+10"` — yields volume 100 (clamped). -/
theorem mopidy_mqtt_C1_witness :
    (on_action_vol ⟨95, .stopped, []⟩ ⟨'+' :: ['1', '0']⟩).1.volume = 100 := by
  have h := (mopidy_mqtt_C1 ⟨95, .stopped, []⟩ ['1', '0'] (by decide) (by decide)).2.2
  rw [h]; decide

/-- Counterexample to C3 as stated: the payload `"=-5"` has a suffix `"-5"`
that is not a string of digits, yet dispatching it changes the player volume
(from 50 to 0) and logs no warning, because Python's `int()` accepts a signed
numeral. -/
theorem mopidy_mqtt_C3_counterexample :
    ("-5".data.all Char.isDigit) = false ∧
    (on_action_vol ⟨50, .stopped, []⟩ "=-5").1 ≠ (⟨50, .stopped, []⟩ : Player) ∧
    (on_action_vol ⟨50, .stopped, []⟩ "=-5").2.warnings = [] := by decide

/-- C3 (amended): for every malformed volume command payload — length less
than 2, a suffix after the operator that Python's `int()` rejects (not an
optionally signed digit string over Unicode decimal digits with
single-underscore grouping, padded by `int()`-accepted whitespace), or, when
the suffix does parse, a first character that is not one of `'='`, `'-'`,
`'+'` — dispatching the `vol` action leaves the player unchanged, performs no
player call, and logs a warning. -/
theorem mopidy_mqtt_C3 (p : Player) :
    (∀ v : String, v.data.length < 2 →
      on_action_vol p v = (p, warnEff ("Invalid volume control parameter: " ++ v))) ∧
    (∀ (op d : Char) (rest : List Char),
      pyInt ⟨d :: rest⟩ = none ∨ (op ≠ '=' ∧ op ≠ '-' ∧ op ≠ '+') →
      (on_action_vol p ⟨op :: d :: rest⟩).1 = p ∧
      (on_action_vol p ⟨op :: d :: rest⟩).2.calls = [] ∧
      (on_action_vol p ⟨op :: d :: rest⟩).2.warnings ≠ []) := by
  constructor
  · intro v hlen
    obtain ⟨cs⟩ := v
    match cs, hlen with
    | [], _ => rfl
    | [c], _ => rfl
  · intro op d rest h
    cases hpy : pyInt ⟨d :: rest⟩ with
    | none => simp [on_action_vol, hpy, warnEff]
    | some a =>
      rcases h with h | ⟨h1, h2, h3⟩
      · exact absurd hpy (by simp [h])
      · simp [on_action_vol, hpy, h1, h2, h3, warnEff]

/-- Witness for C3 (amended): the one-character payload `"x"`, the
unparsable payload `"+a"`, and the unknown-operator payload `"?5"` all leave
the player untouched and log a warning. -/
theorem mopidy_mqtt_C3_witness :
    on_action_vol ⟨50, .stopped, []⟩ "x" =
      (⟨50, .stopped, []⟩, warnEff "Invalid volume control parameter: x") ∧
    (on_action_vol ⟨50, .stopped, []⟩ ⟨['+', 'a']⟩).1 = (⟨50, .stopped, []⟩ : Player) ∧
    (on_action_vol ⟨50, .stopped, []⟩ ⟨['?', '5']⟩).1 = (⟨50, .stopped, []⟩ : Player) := by
  refine ⟨(mopidy_mqtt_C3 ⟨50, .stopped, []⟩).1 "x" (by decide), ?_, ?_⟩
  · exact ((mopidy_mqtt_C3 ⟨50, .stopped, []⟩).2 '+' 'a' [] (Or.inl (by decide))).1
  · exact ((mopidy_mqtt_C3 ⟨50, .stopped, []⟩).2 '?' '5' [] (Or.inr (by decide))).1

/-- C4: dispatching the `plb` action with value `toggle` invokes exactly the
player call determined by the current playback state — `pause()` when
PLAYING, `resume()` when PAUSED, `play()` when STOPPED — and nothing else. -/
theorem mopidy_mqtt_C4 (p : Player) :
    on_action_plb p "toggle" =
      (p, callEff (match p.state with
        | .playing => .pause
        | .paused => .resume
        | .stopped => .play)) := by
  obtain ⟨pv, ps, pq⟩ := p
  cases ps <;> simp [on_action_plb]

/-- C5: every player lifecycle notification produces exactly one outbound
message with its fixed topic suffix and payload: `playback_state_changed`
publishes the new state on `sta`; `track_playback_started` publishes the
formatted track description on `trk`; `track_playback_ended` publishes the
empty string on `trk` for every track and time position; `volume_changed`
publishes the string form of the volume on `vol`; `stream_title_changed`
publishes the formatted stream description on `trk`.  No player calls,
warnings or exceptions accompany any of them. -/
theorem mopidy_mqtt_C5 {Track : Type} (describe_track : Track → String)
    (describe_stream : String → String) (old_state new_state : PlaybackState)
    (tl_track : TlTrack Track) (time_position : Int) (volume : Int)
    (title : String) :
    playback_state_changed old_state new_state =
      pubEff "sta" new_state.toWire ∧
    track_playback_started describe_track tl_track =
      pubEff "trk" (describe_track tl_track.track) ∧
    track_playback_ended tl_track time_position = pubEff "trk" "" ∧
    volume_changed volume = pubEff "vol" (toString volume) ∧
    stream_title_changed describe_stream title =
      pubEff "trk" (describe_stream title) ∧
    ∀ t pl : String, (pubEff t pl).published = [(t, pl)] ∧
      (pubEff t pl).calls = [] ∧ (pubEff t pl).warnings = [] ∧
      (pubEff t pl).raised = false :=
  ⟨rfl, rfl, rfl, rfl, rfl, fun _ _ => ⟨rfl, rfl, rfl, rfl⟩⟩

/-- C6: dispatching `inf` with value `state` publishes exactly one message
carrying the current playback state on `sta`, and with value `volume` exactly
one message carrying the current volume as a string on `vol`; the player is
untouched. -/
theorem mopidy_mqtt_C6 (p : Player) :
    on_action_inf p "state" = (p, pubEff "sta" p.state.toWire) ∧
    on_action_inf p "volume" = (p, pubEff "vol" (toString p.volume)) := by
  constructor <;> simp [on_action_inf]

/-- C7: dispatching `add` with an empty payload performs no queue mutation
and logs a warning; with any non-empty payload the URI is appended to the end
of the queue, the rest of the queue and player unchanged. -/
theorem mopidy_mqtt_C7 (p : Player) :
    on_action_add p "" = (p, warnEff "Cannot add empty track to queue") ∧
    (∀ v : String, v ≠ "" →
      on_action_add p v =
        (⟨p.volume, p.state, p.queue ++ [v]⟩, callEff (.tracklistAdd v))) := by
  refine ⟨by simp [on_action_add], fun v hv => by simp [on_action_add, hv]⟩

/-- Witness for C7: adding `"b"` to a queue holding `["a"]` appends it. -/
theorem mopidy_mqtt_C7_witness :
    on_action_add ⟨10, .stopped, ["a"]⟩ "b" =
      (⟨10, .stopped, ["a", "b"]⟩, callEff (.tracklistAdd "b")) := by
  have h := (mopidy_mqtt_C7 ⟨10, .stopped, ["a"]⟩).2 "b" (by decide)
  simpa using h

/-- C8: for every `plb` payload outside the recognized set
{play, stop, pause, resume, toggle, prev, next}, no player method is invoked:
the handler returns the player unchanged with only a warning. -/
theorem mopidy_mqtt_C8 (p : Player) (v : String)
    (h : v ≠ "play" ∧ v ≠ "stop" ∧ v ≠ "pause" ∧ v ≠ "resume" ∧
      v ≠ "toggle" ∧ v ≠ "prev" ∧ v ≠ "next") :
    on_action_plb p v = (p, warnEff ("Unknown playback control action: " ++ v)) := by
  obtain ⟨h1, h2, h3, h4, h5, h6, h7⟩ := h
  simp [on_action_plb, h1, h2, h3, h4, h5, h6, h7]

/-- Witness for C8: the payload `"bogus"` only logs a warning. -/
theorem mopidy_mqtt_C8_witness :
    on_action_plb ⟨50, .playing, []⟩ "bogus" =
      (⟨50, .playing, []⟩, warnEff "Unknown playback control action: bogus") :=
  mopidy_mqtt_C8 ⟨50, .playing, []⟩ "bogus" (by decide)

/-- C9: dispatching `loa` with any non-empty payload clears the tracklist
(the one player call is `tracklist.clear()`) and then raises the
not-implemented condition, so the pre-dispatch queue is not preserved even
though the command fails. -/
theorem mopidy_mqtt_C9 (p : Player) (v : String) (hv : v ≠ "") :
    on_action_loa p v = (⟨p.volume, p.state, []⟩, raiseEff [.tracklistClear]) := by
  simp [on_action_loa, hv]

/-- Witness for C9: loading `"pl"` with queue `["a", "b"]` empties the queue
and raises. -/
theorem mopidy_mqtt_C9_witness :
    on_action_loa ⟨50, .playing, ["a", "b"]⟩ "pl" =
      (⟨50, .playing, []⟩, raiseEff [.tracklistClear]) :=
  mopidy_mqtt_C9 ⟨50, .playing, ["a", "b"]⟩ "pl" (by decide)

/-- C10: `loa` and `src` raise the not-implemented condition exactly for
non-empty payloads; an empty payload only logs a warning and returns, leaving
the player and queue untouched. -/
theorem mopidy_mqtt_C10 (p : Player) (v : String) :
    ((on_action_loa p v).2.raised = true ↔ v ≠ "") ∧
    ((on_action_src p v).2.raised = true ↔ v ≠ "") ∧
    (v = "" →
      on_action_loa p v = (p, warnEff "Cannot load unnamed playlist") ∧
      on_action_src p v = (p, warnEff "Cannot search without a query")) := by
  by_cases hv : v = "" <;>
    simp [on_action_loa, on_action_src, hv, warnEff, raiseEff]

/-- Witness for C10: with an empty payload `loa` only warns, and with the
payload `"q"` `src` raises the not-implemented condition. -/
theorem mopidy_mqtt_C10_witness :
    on_action_loa ⟨50, .stopped, ["a"]⟩ "" =
      (⟨50, .stopped, ["a"]⟩, warnEff "Cannot load unnamed playlist") ∧
    (on_action_src ⟨50, .stopped, []⟩ "q").2.raised = true := by
  refine ⟨((mopidy_mqtt_C10 ⟨50, .stopped, ["a"]⟩ "").2.2 rfl).1, ?_⟩
  exact (mopidy_mqtt_C10 ⟨50, .stopped, []⟩ "q").2.1.mpr (by decide)

/-! ### Shape lemmas for the dispatch-boundary claim -/

lemma on_action_plb_shape (p : Player) (v : String) :
    (∃ c, on_action_plb p v = (p, callEff c)) ∨
    on_action_plb p v = (p, warnEff ("Unknown playback control action: " ++ v)) := by
  obtain ⟨pv, ps, pq⟩ := p
  unfold on_action_plb
  split_ifs <;> first
    | exact Or.inl ⟨_, rfl⟩
    | exact Or.inr rfl
    | (cases ps <;> exact Or.inl ⟨_, rfl⟩)

lemma on_action_vol_shape (p : Player) (v : String) :
    (∃ a, on_action_vol p v = volumeSet p a) ∨
    (∃ m, on_action_vol p v = (p, warnEff m)) := by
  obtain ⟨cs⟩ := v
  rcases cs with _ | ⟨op, _ | ⟨d, rest⟩⟩
  · exact Or.inr ⟨_, rfl⟩
  · exact Or.inr ⟨_, rfl⟩
  · cases hpy : pyInt ⟨d :: rest⟩ with
    | none =>
      exact Or.inr ⟨"Invalid volume setting value: " ++ String.mk (d :: rest),
        by simp [on_action_vol, hpy]⟩
    | some a =>
      by_cases h1 : op = '='
      · exact Or.inl ⟨a, by simp [on_action_vol, hpy, h1]⟩
      by_cases h2 : op = '-'
      · exact Or.inl ⟨p.volume - a, by simp [on_action_vol, hpy, h1, h2]⟩
      by_cases h3 : op = '+'
      · exact Or.inl ⟨p.volume + a, by simp [on_action_vol, hpy, h1, h2, h3]⟩
      exact Or.inr ⟨"Unknown volume control operator: " ++ String.mk [op],
        by simp [on_action_vol, hpy, h1, h2, h3]⟩

/-- C2: for every topic suffix and every payload, dispatching never lets an
exception escape past the dispatch boundary; the `NotImplementedError` of the
unimplemented actions (`loa` and `src` with a non-empty payload, `inf` with
`queue`) — and only it — is surfaced as the signaled not-implemented
condition; and every invocation that logs a warning is a no-op (player
unchanged, no player call, no message published). -/
theorem mopidy_mqtt_C2 (p : Player) (topicSuffix payload : String) :
    (dispatch p topicSuffix payload).2.2 ≠ DispatchOutcome.crashed ∧
    ((dispatch p topicSuffix payload).2.1.raised = true ↔
      (topicSuffix = "loa" ∧ payload ≠ "") ∨
      (topicSuffix = "src" ∧ payload ≠ "") ∨
      (topicSuffix = "inf" ∧ payload = "queue")) ∧
    ((dispatch p topicSuffix payload).2.1.raised = true →
      (dispatch p topicSuffix payload).2.2 = DispatchOutcome.notImplementedSignaled) ∧
    ((dispatch p topicSuffix payload).2.1.warnings ≠ [] →
      (dispatch p topicSuffix payload).1 = p ∧
      (dispatch p topicSuffix payload).2.1.calls = [] ∧
      (dispatch p topicSuffix payload).2.1.published = []) := by
  unfold dispatch
  split_ifs with h1 h2 h3 h4 h5 h6 h7
  · -- plb
    subst h1
    rcases on_action_plb_shape p payload with ⟨c, hc⟩ | hc <;> rw [hc] <;>
      simp [boundary, callEff, warnEff]
  · -- vol
    subst h2
    rcases on_action_vol_shape p payload with ⟨a, ha⟩ | ⟨m, hm⟩
    · rw [ha]; simp [boundary, volumeSet, callEff]
    · rw [hm]; simp [boundary, warnEff]
  · -- add
    subst h3
    by_cases hv : payload = "" <;>
      simp [on_action_add, hv, boundary, callEff, warnEff]
  · -- clr
    subst h4
    simp [on_action_clr, boundary, callEff]
  · -- loa
    subst h5
    by_cases hv : payload = "" <;>
      simp [on_action_loa, hv, boundary, warnEff, raiseEff]
  · -- src
    subst h6
    by_cases hv : payload = "" <;>
      simp [on_action_src, hv, boundary, warnEff, raiseEff]
  · -- inf
    subst h7
    by_cases hs : payload = "state"
    · simp [on_action_inf, hs, boundary, pubEff]
    by_cases hv : payload = "volume"
    · simp [on_action_inf, hs, hv, boundary, pubEff]
    by_cases hq : payload = "queue"
    · simp [on_action_inf, hs, hv, hq, boundary, raiseEff]
    · simp [on_action_inf, hs, hv, hq, boundary, warnEff]
  · -- unknown command
    simp [boundary, warnEff]
    exact ⟨fun h => absurd h h5, fun h => absurd h h6, fun h => absurd h h7⟩

/-- Witness for C2: dispatching `src` with the payload `"q"` ends in the
signaled not-implemented condition, not a crash. -/
theorem mopidy_mqtt_C2_witness :
    (dispatch ⟨50, .stopped, []⟩ "src" "q").2.2 =
      DispatchOutcome.notImplementedSignaled := by
  exact (mopidy_mqtt_C2 ⟨50, .stopped, []⟩ "src" "q").2.2.1 (by decide)
